import Mathlib

set_option maxRecDepth 100000

/-!
Shallow embedding of the LLM test-suggestion CI scripts
(`.github/llm-bot/llm-test-suggestions.mjs` and
`.github/scripts/llm-test-suggestions.mjs`).

JavaScript strings are modelled as Lean `String` (lists of characters),
`undefined`-able values as `Option`, and fallible operations as `Except`.
The JavaScript truthiness conventions used by the scripts (`x || y` where a
string is falsy iff empty, a number is falsy iff `0` or `NaN`, and
`undefined` is falsy) are modelled by explicit helper functions below.
-/

namespace LlmBot

/-- JavaScript whitespace test used by `String.prototype.trim` (restricted to
the ASCII whitespace characters that can occur in the strings at hand). -/
def ws (c : Char) : Bool := c.isWhitespace

/-- Drop leading whitespace of a character list. -/
def ldropWs (l : List Char) : List Char := l.dropWhile ws

/-- Drop trailing whitespace of a character list. -/
def rdropWs (l : List Char) : List Char := (l.reverse.dropWhile ws).reverse

/-- `String.prototype.trim()` on the underlying character list. -/
def jsTrimList (l : List Char) : List Char := rdropWs (ldropWs l)

/-- JavaScript `s.trim()`. -/
def jsTrim (s : String) : String := String.mk (jsTrimList s.data)

/-- JavaScript `a || b` where `a` is a possibly-`undefined` string:
`undefined` and the empty string are falsy. -/
def jsOrOpt (a : Option String) (b : String) : String :=
  match a with
  | none => b
  | some s => if s = "" then b else s

/-- JavaScript `a || b` on two strings: the empty string is falsy. -/
def jsOrStr (a b : String) : String := if a = "" then b else a

/-- `function truncate(str, max)`: empty input maps to `""`; an input of at
most `max` characters is returned unchanged; otherwise the first `max`
characters (`str.slice(0, max)`) followed by the truncation marker. -/
def truncate (str : String) (max : Nat) : String :=
  if str = "" then ""
  else if str.length ≤ max then str
  else String.mk (str.data.take max) ++ "\n…(truncated)"

/-- The fixed placeholder used when GitHub omits a patch. -/
def NO_PATCH_SENTINEL : String := "(no patch provided by GitHub for this file)"

/-- `function toSafePatch(patch)`: `patch || "(no patch provided by GitHub for this file)"`. -/
def toSafePatch (patch : Option String) : String := jsOrOpt patch NO_PATCH_SENTINEL

/-- One record of the completion API's model listing (`{id}`). -/
structure ModelRec where
  id : String

/-- A JavaScript error value as inspected by the scripts: `err?.error?.message`
and `err?.message`, each possibly `undefined`. -/
structure JsError where
  errorMessage : Option String
  message : Option String

/-- The hard-coded ordered preference list inside `chooseModel`. -/
def preferredModels : List String :=
  ["gpt-5", "gpt-5-mini", "gpt-5.2", "gpt-5.2-mini",
   "gpt-4.1-mini", "gpt-4.1", "gpt-4o-mini", "gpt-4o"]

/-- Body of `chooseModel`, factored over the preference list. The
`client.models.list()` call is modelled by its outcome: either a raised error
or a response whose `data` field may be `undefined` (`models?.data || []`).
On success the first preferred entry contained in the available id set is
chosen (`preferred.find(...)`), with `chosen || "gpt-4o-mini"`; on a raised
error the catch branch returns `"gpt-4o-mini"`. -/
def chooseModelWith (preferred : List String)
    (fetched : Except JsError (Option (List ModelRec))) : String :=
  match fetched with
  | .ok models =>
    let available := (models.getD []).map (fun m => m.id)
    let chosen := preferred.find? (fun m => available.contains m)
    jsOrOpt chosen "gpt-4o-mini"
  | .error _ => "gpt-4o-mini"

/-- `async function chooseModel(client)` with its hard-coded preference list. -/
def chooseModel (fetched : Except JsError (Option (List ModelRec))) : String :=
  chooseModelWith preferredModels fetched

/-- A changed-file record as returned by the hosting API; `patch` may be
absent. -/
structure FileRec where
  filename : String
  status : String
  additions : Nat
  deletions : Nat
  patch : Option String

/-- A post-processed changed file as sent to the prompt. -/
structure ChangedFile where
  filename : String
  status : String
  additions : Nat
  deletions : Nat
  patch : String

/-- `const MAX_FILES = 30`. -/
def MAX_FILES : Nat := 30

/-- `const MAX_PATCH_CHARS_PER_FILE = 4000`. -/
def MAX_PATCH_CHARS_PER_FILE : Nat := 4000

/-- The per-file mapping inside `files.slice(0, MAX_FILES).map(f => ...)`. -/
def mkChanged (f : FileRec) : ChangedFile :=
  { filename := f.filename, status := f.status,
    additions := f.additions, deletions := f.deletions,
    patch := truncate (toSafePatch f.patch) MAX_PATCH_CHARS_PER_FILE }

/-- `files.slice(0, MAX_FILES)`. -/
def boundedFiles (files : List FileRec) : List FileRec := files.take MAX_FILES

/-- `const changed = files.slice(0, MAX_FILES).map(f => ({...}))`. -/
def changedOf (files : List FileRec) : List ChangedFile :=
  (boundedFiles files).map mkChanged

/-- The completion response as inspected by the scripts: `output_text` may be
absent. -/
structure CompletionResponse where
  output_text : Option String

/-- Success branch: `md = (response.output_text || "").trim() || "No output from model."`. -/
def successMd (r : CompletionResponse) : String :=
  jsOrStr (jsTrim (jsOrOpt r.output_text "")) "No output from model."

/-- Catch branch reason: `err?.error?.message || err?.message || "Unknown error"`. -/
def extractReason (e : JsError) : String :=
  jsOrOpt e.errorMessage (jsOrOpt e.message "Unknown error")

/-- Catch branch body: the trimmed fallback warning template with the reason
interpolated. -/
def fallbackMd (reason : String) : String :=
  jsTrim ("\n⚠️ **LLM test suggestions are temporarily unavailable**\n\nReason:\n- "
    ++ reason
    ++ "\n\nWhat to do:\n- Check OpenAI API billing / quota\n- Verify the model is available for this API key\n- Re-run the workflow after fixing\n\nThis does **not** block the PR.\n")

/-- The `try { ... } catch (err) { ... }` around `client.responses.create`,
producing the pair `(md, modelNote)`. The invocation is modelled by its
outcome. -/
def completionOutcome (chosenModel : String)
    (resp : Except JsError CompletionResponse) : String × String :=
  match resp with
  | .ok r => (successMd r, "<sub>Model: " ++ chosenModel ++ "</sub>")
  | .error err =>
    (fallbackMd (extractReason err), "<sub>Attempted model: " ++ chosenModel ++ "</sub>")

/-- The `Files analyzed` line: `<sub>Files analyzed: ${Math.min(files.length, MAX_FILES)} (of ${files.length})</sub>`. -/
def filesFooter (total : Nat) : String :=
  "<sub>Files analyzed: " ++ toString (min total MAX_FILES)
    ++ " (of " ++ toString total ++ ")</sub>"

/-- The final comment template (trimmed), parameterised by `md`, the original
changed-file count and the model note. -/
def mkComment (md : String) (totalFiles : Nat) (modelNote : String) : String :=
  jsTrim ("\n### ✅ QA test suggestions (LLM)\n\n> Generated from PR diff. Please treat as recommendations, not a gate.\n\n"
    ++ md ++ "\n\n" ++ filesFooter totalFiles ++ "\n" ++ modelNote ++ "\n")

/-- Steps 4-6 of the script after model choice: run the completion (or its
catch branch), assemble the final comment, and emit it via
`core.setOutput("body", comment)`, modelled as the emitted key/value pair. -/
def emitOutput (chosenModel : String) (resp : Except JsError CompletionResponse)
    (totalFiles : Nat) : String × String :=
  let o := completionOutcome chosenModel resp
  ("body", mkComment o.1 totalFiles o.2)

/-- The process environment slice read by the script; every variable may be
absent. -/
structure Env where
  openaiApiKey : Option String
  githubToken : Option String
  prNumber : Option String
  repo : Option String

/-- JavaScript string truthiness: `!x` for a possibly-`undefined` string. -/
def strFalsy : Option String → Bool
  | none => true
  | some s => s == ""

/-- Numeric value of a digit run. -/
def digitsVal (l : List Char) : Nat :=
  l.foldl (fun acc c => acc * 10 + (c.toNat - 48)) 0

/-- Parse an unsigned decimal literal (digits with an optional fraction part)
to a rational; `none` models `NaN`. -/
def parseUnsigned (l : List Char) : Option Rat :=
  let intPart := l.takeWhile Char.isDigit
  let rest := l.dropWhile Char.isDigit
  match rest with
  | [] => if intPart.isEmpty then none else some ((digitsVal intPart : Rat))
  | c :: frac =>
    if c = '.' ∧ frac.all Char.isDigit ∧ (intPart ≠ [] ∨ frac ≠ []) then
      some ((digitsVal intPart : Rat) + (digitsVal frac : Rat) / ((10 : Rat) ^ frac.length))
    else none

/-- Models the JavaScript `Number(x)` coercion applied to
`process.env.PR_NUMBER` (decimal numeric strings: optional surrounding
whitespace, optional sign, digits with an optional fraction part).
`Number(undefined)` and unparsable strings are `NaN`, modelled as `none`;
the empty / all-whitespace string coerces to `0`. -/
def jsNumber : Option String → Option Rat
  | none => none
  | some s =>
    let t := jsTrimList s.data
    if t = [] then some 0
    else
      match t with
      | '-' :: rest => (parseUnsigned rest).map (fun q => -q)
      | '+' :: rest => parseUnsigned rest
      | _ => parseUnsigned t

/-- JavaScript number truthiness: `!n` is true iff `n` is `0` or `NaN`. -/
def numFalsy : Option Rat → Bool
  | none => true
  | some q => q == 0

/-- The four startup checks, in source order:
`if (!OPENAI_API_KEY) throw ...` etc., with
`PR_NUMBER = Number(process.env.PR_NUMBER)`. An `Except.error` is a thrown
startup error carrying the thrown message. -/
def envCheck (e : Env) : Except String Unit :=
  if strFalsy e.openaiApiKey then .error "Missing OPENAI_API_KEY secret"
  else if strFalsy e.githubToken then .error "Missing GITHUB_TOKEN"
  else if numFalsy (jsNumber e.prNumber) then .error "Missing PR_NUMBER"
  else if strFalsy e.repo then .error "Missing REPO"
  else .ok ()

/-- Split a character list at every occurrence of `sep`, as JavaScript
`String.prototype.split` with a one-character separator does (the result is
never empty; splitting the empty string yields one empty segment). -/
def splitChar (sep : Char) : List Char → List (List Char)
  | [] => [[]]
  | c :: cs =>
    if c = sep then [] :: splitChar sep cs
    else
      match splitChar sep cs with
      | [] => [[c]]
      | h :: t => (c :: h) :: t

/-- JavaScript `s.split(sep)` for a one-character separator. -/
def jsSplit (s : String) (sep : Char) : List String :=
  (splitChar sep s.data).map String.mk

/-- `const [owner, repo] = REPO.split("/")`: positional destructuring; a
missing element is `undefined`. -/
def ownerOf (s : String) : Option String := (jsSplit s '/').get? 0

/-- The second destructured element of `REPO.split("/")`. -/
def repoOf (s : String) : Option String := (jsSplit s '/').get? 1

/-- The fixed warning header of the fallback block. -/
def WARN_HEAD : String := "⚠️ **LLM test suggestions are temporarily unavailable**"

/-- The fixed remediation bullet list of the fallback block. -/
def REMEDIATION : String :=
  "What to do:\n- Check OpenAI API billing / quota\n- Verify the model is available for this API key\n- Re-run the workflow after fixing"

/-- The fixed leading block of the final comment (after trimming). -/
def COMMENT_HEAD : String :=
  "### ✅ QA test suggestions (LLM)\n\n> Generated from PR diff. Please treat as recommendations, not a gate.\n\n"

/-- `t` occurs verbatim as a contiguous substring of `s`. -/
def containsStr (s t : String) : Prop := ∃ a b : String, s = a ++ t ++ b

/-! ## Supporting lemmas -/

/-- `jsOrOpt` never returns the empty string when its fallback is non-empty. -/
theorem jsOrOpt_ne_empty (a : Option String) (b : String) (hb : b ≠ "") :
    jsOrOpt a b ≠ "" := by
  cases a with
  | none => simpa [jsOrOpt] using hb
  | some s =>
    by_cases hs : s = "" <;> simp [jsOrOpt, hs, hb]

/-- Every entry of the hard-coded preference list is a non-empty identifier. -/
theorem preferredModels_ne_empty : ∀ q ∈ preferredModels, q ≠ "" := by
  decide

/-- The underlying character list of `String.mk`. -/
theorem data_mk (l : List Char) : (String.mk l).data = l := rfl

/-- Dropping leading whitespace distributes over an append whose first part
keeps a non-whitespace character. -/
theorem ldropWs_append (p q : List Char) (h : ldropWs p ≠ []) :
    ldropWs (p ++ q) = ldropWs p ++ q := by
  unfold ldropWs at h ⊢
  rw [List.dropWhile_append, if_neg]
  simpa using h

/-- Dropping trailing whitespace distributes over an append whose second part
keeps a non-whitespace character. -/
theorem rdropWs_append (p q : List Char) (h : rdropWs q ≠ []) :
    rdropWs (p ++ q) = p ++ rdropWs q := by
  have h2 : q.reverse.dropWhile ws ≠ [] := by
    intro he
    apply h
    unfold rdropWs
    rw [he]
    rfl
  unfold rdropWs
  rw [List.reverse_append, List.dropWhile_append, if_neg (by simpa using h2),
    List.reverse_append, List.reverse_reverse]

/-- Trimming a string of the shape `p ++ m ++ q` where `p` keeps a leading
non-whitespace character and `q` a trailing one only trims inside `p` and
`q`; the middle part `m` survives verbatim. -/
theorem jsTrimList_decomp (p m q : List Char) (hp : ldropWs p ≠ [])
    (hq : rdropWs q ≠ []) :
    jsTrimList (p ++ m ++ q) = ldropWs p ++ m ++ rdropWs q := by
  unfold jsTrimList
  rw [List.append_assoc, ldropWs_append p (m ++ q) hp, ← List.append_assoc,
    rdropWs_append (ldropWs p ++ m) q hq, List.append_assoc]

/-- Trimming a template of the shape `P ++ M ++ Q`, with the trimmed ends
supplied explicitly. -/
theorem jsTrim_template (P M Q P2 Q2 : String)
    (hP : String.mk (ldropWs P.data) = P2) (hPne : ldropWs P.data ≠ [])
    (hQ : String.mk (rdropWs Q.data) = Q2) (hQne : rdropWs Q.data ≠ []) :
    jsTrim (P ++ M ++ Q) = P2 ++ M ++ Q2 := by
  apply String.ext
  rw [jsTrim, data_mk, String.data_append, String.data_append,
    jsTrimList_decomp P.data M.data Q.data hPne hQne, ← hP, ← hQ]
  simp [data_mk]

/-- Exhibiting a decomposition proves substring containment. -/
theorem containsStr_of_eq (s a t b : String) (h : s = a ++ t ++ b) :
    containsStr s t := ⟨a, b, h⟩

/-- The catch-branch markdown block in exact form: warning header, reason
line, remediation bullets, closing note. -/
theorem fallbackMd_eq (reason : String) :
    fallbackMd reason =
      (WARN_HEAD ++ "\n\nReason:\n- ") ++ reason ++
        ("\n\n" ++ REMEDIATION ++ "\n\nThis does **not** block the PR.") := by
  unfold fallbackMd
  exact jsTrim_template _ _ _ _ _ (by decide) (by decide) (by decide) (by decide)

/-- The final comment in exact form, for any model note ending in `</sub>`. -/
theorem mkComment_eq (md : String) (n : Nat) (nb : String) :
    mkComment md n (nb ++ "</sub>") =
      COMMENT_HEAD ++ (md ++ "\n\n" ++ filesFooter n ++ "\n" ++ nb) ++ "</sub>" := by
  unfold mkComment
  have harr :
      ("\n### ✅ QA test suggestions (LLM)\n\n> Generated from PR diff. Please treat as recommendations, not a gate.\n\n" : String)
        ++ md ++ "\n\n" ++ filesFooter n ++ "\n" ++ (nb ++ "</sub>") ++ "\n" =
      ("\n### ✅ QA test suggestions (LLM)\n\n> Generated from PR diff. Please treat as recommendations, not a gate.\n\n" : String)
        ++ (md ++ "\n\n" ++ filesFooter n ++ "\n" ++ nb) ++ ("</sub>" ++ "\n") := by
    simp [String.append_assoc]
  rw [harr]
  exact jsTrim_template _ _ _ _ _ (by decide) (by decide) (by decide) (by decide)

/-- `splitChar` never produces an empty segment list. -/
theorem splitChar_ne_nil (sep : Char) (l : List Char) : splitChar sep l ≠ [] := by
  cases l with
  | nil => simp [splitChar]
  | cons c cs =>
    simp only [splitChar]
    split
    · exact List.cons_ne_nil _ _
    · split
      · exact List.cons_ne_nil _ _
      · exact List.cons_ne_nil _ _

/-- The first segment of `splitChar` is the text before the first separator. -/
theorem splitChar_head (sep : Char) (l : List Char) :
    (splitChar sep l).head? = some (l.takeWhile (fun c => !(c == sep))) := by
  induction l with
  | nil => rfl
  | cons c cs ih =>
    simp only [splitChar, List.takeWhile_cons]
    by_cases h : c = sep
    · simp [h]
    · rcases hsp : splitChar sep cs with _ | ⟨h1, t1⟩
      · exact absurd hsp (splitChar_ne_nil sep cs)
      · rw [hsp] at ih
        simp only [List.head?_cons, Option.some.injEq] at ih
        simp [h, hsp, ih]

/-- A separator-free list splits into a single segment. -/
theorem splitChar_no_sep (sep : Char) (l : List Char) (h : sep ∉ l) :
    splitChar sep l = [l] := by
  induction l with
  | nil => rfl
  | cons c cs ih =>
    have hc : ¬ c = sep := fun hh => h (hh ▸ List.mem_cons_self c cs)
    have hcs : sep ∉ cs := fun hh => h (List.mem_cons_of_mem _ hh)
    simp only [splitChar, if_neg hc, ih hcs]

/-- Splitting a list that starts with a separator-free part `a` followed by a
separator yields `a` as the first segment. -/
theorem splitChar_append (sep : Char) (a rest : List Char) (h : sep ∉ a) :
    splitChar sep (a ++ sep :: rest) = a :: splitChar sep rest := by
  induction a with
  | nil => simp [splitChar]
  | cons c a2 ih =>
    have hc : ¬ c = sep := fun hh => h (hh ▸ List.mem_cons_self c a2)
    have ha : sep ∉ a2 := fun hh => h (List.mem_cons_of_mem _ hh)
    simp only [List.cons_append, splitChar, if_neg hc, List.append_eq, ih ha]

/-! ## Claim theorems -/

/-- C2: `chooseModel` is total: for every outcome of the available-model
fetch (a raised error, a response with missing data, or any list of model
records) it returns a non-empty model identifier; there is no failing
execution path (the function is total by construction). -/
theorem chooseModel_total (fetched : Except JsError (Option (List ModelRec))) :
    chooseModel fetched ≠ "" := by
  cases fetched with
  | error e => simp [chooseModel, chooseModelWith]
  | ok models =>
    exact jsOrOpt_ne_empty _ _ (by decide)

/-- C4: if the available-model fetch raises any error, the catch branch
returns the fixed default `"gpt-4o-mini"`, whatever the preference list:
both for the factored selection body and for `chooseModel` itself. -/
theorem chooseModel_fetch_error (preferred : List String) (e : JsError) :
    chooseModelWith preferred (.error e) = "gpt-4o-mini" ∧
    chooseModel (.error e) = "gpt-4o-mini" := by
  exact ⟨rfl, rfl⟩

/-- C3: on a successful fetch, `chooseModel` returns the first entry of its
preference list that occurs among the fetched model ids (stated
positionally: if the list decomposes as `l1 ++ p :: l2` with no entry of
`l1` available and `p` available, the result is `p`); if no entry is
available the result is the fixed default; and on the spec's concrete
example (available ids `gpt-4o-mini`, `gpt-4.1`; preference list
`gpt-5`, `gpt-4.1-mini`, `gpt-4.1`) the result is `"gpt-4.1"`, as it also
is for the script's own hard-coded preference list. -/
theorem chooseModel_first_match (models : List ModelRec) :
    (∀ l1 p l2, preferredModels = l1 ++ p :: l2 →
      (∀ q ∈ l1, (models.map (fun m => m.id)).contains q = false) →
      (models.map (fun m => m.id)).contains p = true →
      chooseModel (.ok (some models)) = p) ∧
    ((∀ q ∈ preferredModels, (models.map (fun m => m.id)).contains q = false) →
      chooseModel (.ok (some models)) = "gpt-4o-mini") ∧
    chooseModelWith ["gpt-5", "gpt-4.1-mini", "gpt-4.1"]
      (.ok (some [⟨"gpt-4o-mini"⟩, ⟨"gpt-4.1"⟩])) = "gpt-4.1" ∧
    chooseModel (.ok (some [⟨"gpt-4o-mini"⟩, ⟨"gpt-4.1"⟩])) = "gpt-4.1" := by
  refine ⟨?_, ?_, by decide, by decide⟩
  · intro l1 p l2 hdec h1 hp
    have hfind : preferredModels.find?
        (fun m => (models.map (fun m => m.id)).contains m) = some p := by
      rw [hdec, List.find?_append]
      have hnone : l1.find? (fun m => (models.map (fun m => m.id)).contains m) = none := by
        rw [List.find?_eq_none]
        intro x hx
        simp only [h1 x hx]
        exact Bool.false_ne_true
      rw [hnone, List.find?_cons_of_pos _ hp]
      rfl
    have hpne : p ≠ "" := by
      refine preferredModels_ne_empty p ?_
      rw [hdec]
      exact List.mem_append_right _ (List.mem_cons_self p l2)
    show jsOrOpt (preferredModels.find?
      (fun m => (models.map (fun m => m.id)).contains m)) "gpt-4o-mini" = p
    rw [hfind]
    simp [jsOrOpt, hpne]
  · intro hall
    have hfind : preferredModels.find?
        (fun m => (models.map (fun m => m.id)).contains m) = none := by
      rw [List.find?_eq_none]
      intro x hx
      simp only [hall x hx]
      exact Bool.false_ne_true
    show jsOrOpt (preferredModels.find?
      (fun m => (models.map (fun m => m.id)).contains m)) "gpt-4o-mini" = "gpt-4o-mini"
    rw [hfind]
    rfl

/-- C3 witness: the first-match clause applied at the script's preference
list split before `"gpt-4.1"` with available ids `gpt-4o-mini`, `gpt-4.1`. -/
theorem chooseModel_first_match_witness :
    chooseModel (.ok (some [⟨"gpt-4o-mini"⟩, ⟨"gpt-4.1"⟩])) = "gpt-4.1" :=
  (chooseModel_first_match [⟨"gpt-4o-mini"⟩, ⟨"gpt-4.1"⟩]).1
    ["gpt-5", "gpt-5-mini", "gpt-5.2", "gpt-5.2-mini", "gpt-4.1-mini"]
    "gpt-4.1" ["gpt-4o-mini", "gpt-4o"]
    (by decide) (by decide) (by decide)

/-- C5: `truncate` at the 4000-character budget is the identity on strings
of at most 4000 characters; on longer strings the result is exactly the
first 4000 characters followed by the fixed truncation marker, and its
length is exactly `4000 +` the marker length. -/
theorem truncate_spec (s : String) :
    (s.length ≤ 4000 → truncate s 4000 = s) ∧
    (4000 < s.length →
      truncate s 4000 = String.mk (s.data.take 4000) ++ "\n…(truncated)" ∧
      (truncate s 4000).length = 4000 + ("\n…(truncated)" : String).length) := by
  constructor
  · intro hle
    by_cases hs : s = ""
    · simp [truncate, hs]
    · simp [truncate, hs, hle]
  · intro hgt
    have hs : s ≠ "" := by
      intro hs
      rw [hs] at hgt
      simp at hgt
    have hnle : ¬ s.length ≤ 4000 := by omega
    have heq : truncate s 4000 = String.mk (s.data.take 4000) ++ "\n…(truncated)" := by
      simp [truncate, hs, hnle]
    refine ⟨heq, ?_⟩
    rw [heq, String.length_append, String.length_mk, List.length_take]
    have hlen : s.data.length = s.length := rfl
    omega

/-- C5 witness: identity on a short string, and exact output length
`4000 + 13` on a 4001-character string. -/
theorem truncate_spec_witness :
    truncate "ab" 4000 = "ab" ∧
    (truncate (String.mk (List.replicate 4001 'a')) 4000).length =
      4000 + ("\n…(truncated)" : String).length :=
  ⟨(truncate_spec "ab").1 (by decide),
   ((truncate_spec (String.mk (List.replicate 4001 'a'))).2
     (by rw [String.length_mk, List.length_replicate]; omega)).2⟩

/-- C8: a file record whose `patch` is absent — or, as the code's falsiness
test also covers, the empty string — is carried into the prompt data with
the fixed placeholder sentinel as its patch text, which is not the empty
string. -/
theorem missing_patch_sentinel (f : FileRec)
    (h : f.patch = none ∨ f.patch = some "") :
    (mkChanged f).patch = NO_PATCH_SENTINEL ∧ NO_PATCH_SENTINEL ≠ "" := by
  have hsafe : toSafePatch f.patch = NO_PATCH_SENTINEL := by
    rcases h with h | h <;> simp [toSafePatch, jsOrOpt, h]
  refine ⟨?_, by decide⟩
  simp only [mkChanged, hsafe]
  exact (truncate_spec NO_PATCH_SENTINEL).1 (by decide)

/-- C1: for every raised completion error — including one carrying no
message at all — the run still reaches output emission with a `body` value
(the catch branch is total), and the final body contains the literal warning
header, a `Reason:` line with a non-empty reason, the fixed remediation
bullets, and a footnote naming the attempted model. -/
theorem completion_failure_spec (e : JsError) (model : String) (n : Nat) :
    extractReason e ≠ "" ∧
    containsStr (emitOutput model (.error e) n).2 WARN_HEAD ∧
    containsStr (emitOutput model (.error e) n).2 ("Reason:\n- " ++ extractReason e) ∧
    containsStr (emitOutput model (.error e) n).2 REMEDIATION ∧
    containsStr (emitOutput model (.error e) n).2
      ("<sub>Attempted model: " ++ model ++ "</sub>") ∧
    emitOutput model (.error e) n =
      ("body", mkComment (fallbackMd (extractReason e)) n
        ("<sub>Attempted model: " ++ model ++ "</sub>")) := by
  have hbody : (emitOutput model (.error e) n).2 =
      COMMENT_HEAD ++ (((WARN_HEAD ++ "\n\nReason:\n- ") ++ extractReason e ++
        ("\n\n" ++ REMEDIATION ++ "\n\nThis does **not** block the PR.")) ++ "\n\n"
        ++ filesFooter n ++ "\n" ++ ("<sub>Attempted model: " ++ model)) ++ "</sub>" := by
    show mkComment (fallbackMd (extractReason e)) n
      (("<sub>Attempted model: " ++ model) ++ "</sub>") = _
    rw [mkComment_eq, fallbackMd_eq]
  refine ⟨?_, ?_, ?_, ?_, ?_, rfl⟩
  · exact jsOrOpt_ne_empty _ _ (jsOrOpt_ne_empty _ _ (by decide))
  · exact ⟨COMMENT_HEAD,
      "\n\nReason:\n- " ++ extractReason e
        ++ ("\n\n" ++ REMEDIATION ++ "\n\nThis does **not** block the PR.") ++ "\n\n"
        ++ filesFooter n ++ "\n" ++ ("<sub>Attempted model: " ++ model) ++ "</sub>",
      by rw [hbody]; apply String.ext; simp [String.data_append, List.append_assoc]⟩
  · exact ⟨COMMENT_HEAD ++ WARN_HEAD ++ "\n\n",
      "\n\n" ++ REMEDIATION ++ "\n\nThis does **not** block the PR." ++ "\n\n"
        ++ filesFooter n ++ "\n" ++ ("<sub>Attempted model: " ++ model) ++ "</sub>",
      by
        rw [hbody]
        apply String.ext
        simp [(by decide : ("\n\nReason:\n- " : String).data =
            ("\n\n" : String).data ++ ("Reason:\n- " : String).data),
          String.data_append, List.append_assoc]⟩
  · exact ⟨COMMENT_HEAD ++ WARN_HEAD ++ "\n\nReason:\n- " ++ extractReason e ++ "\n\n",
      "\n\nThis does **not** block the PR." ++ "\n\n"
        ++ filesFooter n ++ "\n" ++ ("<sub>Attempted model: " ++ model) ++ "</sub>",
      by rw [hbody]; apply String.ext; simp [String.data_append, List.append_assoc]⟩
  · exact ⟨COMMENT_HEAD ++ (WARN_HEAD ++ "\n\nReason:\n- ") ++ extractReason e
        ++ ("\n\n" ++ REMEDIATION ++ "\n\nThis does **not** block the PR.") ++ "\n\n"
        ++ filesFooter n ++ "\n",
      "",
      by rw [hbody]; apply String.ext; simp [String.data_append, List.append_assoc]⟩

/-- C7: on completion success, if the returned text is non-empty after
trimming, the final body contains that trimmed text verbatim and a footnote
naming the selected model; if the text is empty or absent, the literal
`No output from model.` marker is substituted and appears in the body. -/
theorem completion_success_spec (r : Option String) (model : String) (n : Nat) :
    (jsTrim (jsOrOpt r "") ≠ "" →
      containsStr (emitOutput model (.ok ⟨r⟩) n).2 (jsTrim (jsOrOpt r "")) ∧
      containsStr (emitOutput model (.ok ⟨r⟩) n).2 ("<sub>Model: " ++ model ++ "</sub>")) ∧
    (jsTrim (jsOrOpt r "") = "" →
      containsStr (emitOutput model (.ok ⟨r⟩) n).2 "No output from model.") := by
  have hbody : ∀ md : String, successMd ⟨r⟩ = md →
      (emitOutput model (.ok ⟨r⟩) n).2 =
        COMMENT_HEAD ++ (md ++ "\n\n" ++ filesFooter n ++ "\n"
          ++ ("<sub>Model: " ++ model)) ++ "</sub>" := by
    intro md hmd
    show mkComment (successMd ⟨r⟩) n (("<sub>Model: " ++ model) ++ "</sub>") = _
    rw [hmd, mkComment_eq]
  constructor
  · intro ht
    have hmd : successMd ⟨r⟩ = jsTrim (jsOrOpt r "") := by
      unfold successMd jsOrStr
      rw [if_neg ht]
    refine ⟨⟨COMMENT_HEAD,
      "\n\n" ++ filesFooter n ++ "\n" ++ ("<sub>Model: " ++ model) ++ "</sub>",
      by rw [hbody _ hmd]; apply String.ext; simp [String.data_append, List.append_assoc]⟩,
      ⟨COMMENT_HEAD ++ jsTrim (jsOrOpt r "") ++ "\n\n" ++ filesFooter n ++ "\n", "",
      by rw [hbody _ hmd]; apply String.ext; simp [String.data_append, List.append_assoc]⟩⟩
  · intro ht
    have hmd : successMd ⟨r⟩ = "No output from model." := by
      unfold successMd jsOrStr
      rw [if_pos ht]
    exact ⟨COMMENT_HEAD,
      "\n\n" ++ filesFooter n ++ "\n" ++ ("<sub>Model: " ++ model) ++ "</sub>",
      by rw [hbody _ hmd]; apply String.ext; simp [String.data_append, List.append_assoc]⟩

/-- C7 witness: a non-empty trimmed response is quoted verbatim with the
model footnote, and a whitespace-only response is replaced by the marker. -/
theorem completion_success_spec_witness :
    (containsStr (emitOutput "gpt-4.1" (.ok ⟨some "  Test plan: ...  "⟩) 2).2
        (jsTrim (jsOrOpt (some "  Test plan: ...  ") "")) ∧
      containsStr (emitOutput "gpt-4.1" (.ok ⟨some "  Test plan: ...  "⟩) 2).2
        ("<sub>Model: " ++ "gpt-4.1" ++ "</sub>")) ∧
    containsStr (emitOutput "gpt-4.1" (.ok ⟨some "   "⟩) 2).2 "No output from model." :=
  ⟨(completion_success_spec (some "  Test plan: ...  ") "gpt-4.1" 2).1 (by decide),
   (completion_success_spec (some "   ") "gpt-4.1" 2).2 (by decide)⟩

/-- C6: a fetched file list of length at most 30 is passed on unchanged
(same files, same order, also after the per-file mapping); a longer list is
cut to exactly its first 30 entries in input order; and the `Files analyzed`
footer reports `min(length, 30)` analyzed of the original total — in
particular `30 (of 45)` for a 45-file PR. -/
theorem bounded_files_spec (files : List FileRec) :
    (files.length ≤ 30 →
      boundedFiles files = files ∧ changedOf files = files.map mkChanged) ∧
    (30 < files.length →
      (boundedFiles files).length = 30 ∧
      (∀ i, i < 30 → (boundedFiles files)[i]? = files[i]?)) ∧
    filesFooter files.length =
      "<sub>Files analyzed: " ++ toString (min files.length 30) ++ " (of "
        ++ toString files.length ++ ")</sub>" ∧
    filesFooter 45 = "<sub>Files analyzed: 30 (of 45)</sub>" := by
  refine ⟨?_, ?_, rfl, by decide⟩
  · intro h
    have ht : files.take 30 = files := List.take_of_length_le h
    exact ⟨ht, by simp [changedOf, boundedFiles, MAX_FILES, ht]⟩
  · intro h
    constructor
    · rw [show boundedFiles files = files.take 30 from rfl, List.length_take]
      exact Nat.min_eq_left (Nat.le_of_lt h)
    · intro i hi
      exact List.getElem?_take_of_lt hi

/-- C6 witness: a concrete 45-file list is cut to 30 entries, and a short
list passes unchanged. -/
theorem bounded_files_spec_witness :
    (boundedFiles ((List.range 45).map (fun i =>
      ({ filename := toString i, status := "modified", additions := 1,
         deletions := 1, patch := none } : FileRec)))).length = 30 ∧
    boundedFiles [⟨"a", "added", 1, 0, none⟩] = [⟨"a", "added", 1, 0, none⟩] :=
  ⟨((bounded_files_spec _).2.1 (by simp)).1,
   ((bounded_files_spec _).1 (by simp)).1⟩

/-- C9 counterexample: with every variable present and `PR_NUMBER="-1"` —
which coerces to the number `-1`, not a valid positive integer — the
startup checks raise no error, contradicting the claim that a
non-positive-integer PR number terminates the process. -/
theorem env_check_counterexample :
    envCheck { openaiApiKey := some "sk-test", githubToken := some "ghp-test",
               prNumber := some "-1", repo := some "octo/repo" } = .ok () ∧
    jsNumber (some "-1") = some (-1) ∧ ¬ ((0 : Rat) < -1) := by
  refine ⟨rfl, by decide, by norm_num⟩

/-- C9 (amended): the startup checks throw a message naming the first
missing value when the API key, hosting token or repository coordinate is
absent or empty, or when the PR number is absent or coerces to `0` or `NaN`;
in every other case — including a negative or fractional PR number — no
startup error occurs and execution proceeds. -/
theorem env_check_spec (e : Env) :
    (envCheck e = .ok () ↔
      strFalsy e.openaiApiKey = false ∧ strFalsy e.githubToken = false ∧
      numFalsy (jsNumber e.prNumber) = false ∧ strFalsy e.repo = false) ∧
    (strFalsy e.openaiApiKey = true →
      envCheck e = .error "Missing OPENAI_API_KEY secret") ∧
    (strFalsy e.openaiApiKey = false → strFalsy e.githubToken = true →
      envCheck e = .error "Missing GITHUB_TOKEN") ∧
    (strFalsy e.openaiApiKey = false → strFalsy e.githubToken = false →
      numFalsy (jsNumber e.prNumber) = true →
      envCheck e = .error "Missing PR_NUMBER") ∧
    (strFalsy e.openaiApiKey = false → strFalsy e.githubToken = false →
      numFalsy (jsNumber e.prNumber) = false → strFalsy e.repo = true →
      envCheck e = .error "Missing REPO") := by
  unfold envCheck
  rcases h1 : strFalsy e.openaiApiKey <;>
    rcases h2 : strFalsy e.githubToken <;>
      rcases h3 : numFalsy (jsNumber e.prNumber) <;>
        rcases h4 : strFalsy e.repo <;>
          simp [h1, h2, h3, h4]

/-- C9 amended-claim witness: an empty environment fails on the API key
with its message; a fully-populated environment with a positive integer PR
number passes. -/
theorem env_check_spec_witness :
    envCheck { openaiApiKey := none, githubToken := none, prNumber := none,
               repo := none } = .error "Missing OPENAI_API_KEY secret" ∧
    envCheck { openaiApiKey := some "k", githubToken := some "t",
               prNumber := some "7", repo := some "o/r" } = .ok () :=
  ⟨(env_check_spec _).2.1 rfl,
   ((env_check_spec _).1).2 ⟨rfl, rfl, by decide, rfl⟩⟩

/-- C10: destructuring `REPO.split("/")` takes the owner as the text before
the first `/` and the repository name as the second segment; with no `/`
the repository name is `undefined`, with more than one `/` the extra
segments are silently dropped, and no case raises a validation error (every
case yields a defined owner and a possibly-`undefined` repository name). -/
theorem repo_split_spec (s : String) :
    ownerOf s = some (String.mk (s.data.takeWhile (fun c => !(c == '/')))) ∧
    ('/' ∉ s.data → ownerOf s = some s ∧ repoOf s = none) ∧
    (∀ a b c : List Char, '/' ∉ a → '/' ∉ b →
      s.data = a ++ '/' :: (b ++ '/' :: c) →
      ownerOf s = some (String.mk a) ∧ repoOf s = some (String.mk b)) := by
  refine ⟨?_, ?_, ?_⟩
  · unfold ownerOf jsSplit
    rcases hsp : splitChar '/' s.data with _ | ⟨h1, t1⟩
    · exact absurd hsp (splitChar_ne_nil _ _)
    · have hh := splitChar_head '/' s.data
      rw [hsp] at hh
      simp only [List.head?_cons, Option.some.injEq] at hh
      simp [hh]
  · intro h
    unfold ownerOf repoOf jsSplit
    rw [splitChar_no_sep '/' s.data h]
    exact ⟨rfl, rfl⟩
  · intro a b c ha hb heq
    unfold ownerOf repoOf jsSplit
    rw [heq, splitChar_append '/' a _ ha, splitChar_append '/' b c hb]
    exact ⟨rfl, rfl⟩

/-- C10 witness: `"octo/repo/extra"` yields owner `octo`, repository name
`repo`, the third segment dropped; `"noslash"` yields an `undefined`
repository name. -/
theorem repo_split_spec_witness :
    ownerOf "octo/repo/extra" = some "octo" ∧
    repoOf "octo/repo/extra" = some "repo" ∧
    repoOf "noslash" = none := by
  have h3 := (repo_split_spec "octo/repo/extra").2.2
    "octo".data "repo".data "extra".data (by decide) (by decide) (by decide)
  have h1 := (repo_split_spec "noslash").2.1 (by decide)
  exact ⟨h3.1, h3.2, h1.2⟩

/-- C8 witness: a concrete binary-like file record with no patch. -/
theorem missing_patch_sentinel_witness :
    (mkChanged ⟨"assets/logo.png", "added", 0, 0, none⟩).patch = NO_PATCH_SENTINEL ∧
    NO_PATCH_SENTINEL ≠ "" :=
  missing_patch_sentinel ⟨"assets/logo.png", "added", 0, 0, none⟩ (Or.inl rfl)
